import Mathlib

/-!
Shallow embedding of
`Plugins/VRExpansionPlugin/VRExpansionPlugin/Source/VRExpansionPlugin/Private/Misc/VRFullScreenUserWidget.cpp`.

Host-engine state (viewports, the Slate application, the level-editor module,
RHI limits) is modelled by an explicit `HostEnv` record; engine floats
(`FVector2D`, scalar material parameters) are modelled over `ℚ`; calls into the
host that carry no modelled state (e.g. `UpdateResourceImmediate`,
`RegisterComponent`, `DrawWindow`) are recorded as explicit effects so that
theorems can talk about which engine calls a code path performs.
-/

set_option autoImplicit false

namespace VRFullScreenUserWidget

/-- `FVector2D`, modelled over `ℚ`. -/
structure Vec2 where
  x : ℚ
  y : ℚ
deriving DecidableEq

/-- `FIntPoint`. -/
structure IntPoint where
  x : ℤ
  y : ℤ
deriving DecidableEq

/-- `FIntPoint::ZeroValue`. -/
def IntPoint.zeroValue : IntPoint := ⟨0, 0⟩

/-- `FMath::TruncToInt`: conversion of a float to an integer, rounding toward zero. -/
def truncToInt (q : ℚ) : ℤ := q.num.tdiv q.den

/-- `FVector2D::IntPoint()`: componentwise truncation toward zero. -/
def Vec2.intPoint (v : Vec2) : IntPoint := ⟨truncToInt v.x, truncToInt v.y⟩

/-- UE's `SMALL_NUMBER` constant (`1.e-8f`), i.e. the rational 1/100000000. -/
def SMALL_NUMBER : ℚ := mkRat 1 100000000

/-- `FLinearColor`, over `ℚ`. -/
structure LinearColor where
  r : ℚ
  g : ℚ
  b : ℚ
  a : ℚ
deriving DecidableEq

/-- `FLinearColor::White`. -/
def LinearColor.white : LinearColor := ⟨1, 1, 1, 1⟩

/-- `EWorldType` (the members this file inspects, plus a catch-all for the rest). -/
inductive EWorldType where
  | Game
  | PIE
  | Editor
  | EditorPreview
  | GamePreview
  | Inactive
  | NoneType
deriving DecidableEq

/-- `EVRWidgetDisplayType` (the members the translation unit uses; `Composure`
is compiled out in the source). -/
inductive EVRWidgetDisplayType where
  | Inactive
  | Viewport
  | PostProcess
deriving DecidableEq

/-- `EWindowVisibility`. -/
inductive EWindowVisibility where
  | Visible
  | SelfHitTestInvisible
deriving DecidableEq

/-- `EVisibility` (the members produced by `ConvertWindowVisibilityToVisibility`). -/
inductive EVisibility where
  | Visible
  | SelfHitTestInvisible
deriving DecidableEq

/-- `EWidgetBlendMode`. -/
inductive EWidgetBlendMode where
  | Transparent
  | Opaque
  | Masked
deriving DecidableEq

/-- The anonymous-namespace helper `ConvertWindowVisibilityToVisibility`. -/
def convertWindowVisibilityToVisibility : EWindowVisibility → EVisibility
  | .Visible => .Visible
  | .SelfHitTestInvisible => .SelfHitTestInvisible

/-- A `UGameViewportClient`.  `GetViewportSize` writes its out-parameter only
when the client has an underlying `FViewport`; `viewportSize = none` models a
client whose viewport is missing, leaving the caller's default untouched. -/
structure GameViewportClient where
  viewportSize : Option Vec2
deriving DecidableEq

/-- An `SLevelViewport` as far as this file observes it: the size of its shared
active `FSceneViewport` (if any) and whether `GetViewportWidget()` pins. -/
structure LevelViewport where
  sharedActiveViewportSize : Option IntPoint
  hasViewportWidget : Bool
deriving DecidableEq

/-- A `UWorld*`: identity (for pointer comparison), type, and game viewport. -/
structure World where
  id : ℕ
  worldType : EWorldType
  gameViewport : Option GameViewportClient
deriving DecidableEq

/-- Host-engine environment: compile-time flags, global engine state and
editor-module state that the translation unit reads but does not own. -/
structure HostEnv where
  /-- the `WITH_EDITOR` compile-time flag -/
  withEditor : Bool
  /-- `FModuleManager::Get().IsModuleLoaded("LevelEditor")` -/
  levelEditorLoaded : Bool
  /-- `LevelEditorModule.GetFirstActiveLevelViewport()` -/
  firstActiveLevelViewport : Option LevelViewport
  /-- the `UE_SERVER` compile-time flag -/
  ueServer : Bool
  /-- `GUsingNullRHI` -/
  usingNullRHI : Bool
  /-- `HasAnyFlags(RF_ArchetypeObject | RF_ClassDefaultObject)` on the widget object -/
  isArchetypeOrCDO : Bool
  /-- `IsRunningDedicatedServer()` -/
  isDedicatedServer : Bool
  /-- `FSlateApplication::IsInitialized()` -/
  slateApplicationInitialized : Bool
  /-- `GEngine->GetGameViewportWidget()` is non-null -/
  engineGameViewportWidget : Bool
  /-- the engine viewport widget already has a custom hit-test path -/
  existingCustomHitTestPath : Bool
  /-- `GetMax2DTextureDimension()` -/
  maxTextureDimension : ℤ
  /-- `GetViewportDPIScale()` (host-derived DPI computation) -/
  dpiScale : ℚ
deriving DecidableEq

/-- The `TargetViewport.IsValid() ? TargetViewport.Pin() :
LevelEditorModule.GetFirstActiveLevelViewport()` selection, shared by
`CalculateWidgetDrawSize`, the viewport display and the hit-tester
registration. -/
def getActiveLevelViewport (env : HostEnv) (targetViewport : Option LevelViewport) :
    Option LevelViewport :=
  match targetViewport with
  | some tv => some tv
  | none => env.firstActiveLevelViewport

/-- `UTextureRenderTarget2D` as far as this file drives it: the size passed to
`InitCustomFormat` and the clear color. -/
structure RenderTarget where
  sizeX : ℤ
  sizeY : ℤ
  clearColor : LinearColor
deriving DecidableEq

/-- `FWidgetRenderer` configuration set by `CreateRenderer`. -/
structure WidgetRendererState where
  bApplyGammaCorrection : Bool
  bIsPrepassNeeded : Bool
deriving DecidableEq

/-- `SVirtualWindow` state driven by this file: its size, focusability and
visibility. -/
structure SlateWindowState where
  size : IntPoint
  bIsFocusable : Bool
  visibility : EVisibility
  /-- the `DPIScale` of the `SDPIScaler` installed as the window's content -/
  contentDPIScale : ℚ
deriving DecidableEq

/-- `UMaterialInstanceDynamic` state: parent material (by id) and the three
parameters this file sets.  An outer `none` means the parameter was never set;
the `SlateUI` texture parameter value is itself an `Option` because the render
target passed in may be null. -/
structure MaterialInstanceState where
  parent : ℕ
  slateUITexture : Option (Option RenderTarget)
  tintColorAndOpacity : Option LinearColor
  opacityFromTexture : Option ℚ
deriving DecidableEq

/-- `UPostProcessComponent` state driven by `CreatePostProcessComponent`. -/
structure PostProcessComponentState where
  bEnabled : Bool
  bUnbound : Bool
  bRegistered : Bool
  /-- `Settings.WeightedBlendables.Array`: (weight, object) pairs -/
  weightedBlendables : List (ℚ × Option MaterialInstanceState)
deriving DecidableEq

/-- The state of `FVRFullScreenUserWidget_PostProcess`. -/
structure PostProcessState where
  postProcessMaterial : Option ℕ
  postProcessTintColorAndOpacity : LinearColor
  postProcessOpacityFromTexture : ℚ
  bWidgetDrawSize : Bool
  widgetDrawSize : IntPoint
  bWindowFocusable : Bool
  windowVisibility : EWindowVisibility
  bReceiveHardwareInput : Bool
  renderTargetBackgroundColor : LinearColor
  renderTargetBlendMode : EWidgetBlendMode
  widgetRenderTarget : Option RenderTarget
  postProcessComponent : Option PostProcessComponentState
  postProcessMaterialInstance : Option MaterialInstanceState
  widgetRenderer : Option WidgetRendererState
  currentWidgetDrawSize : IntPoint
  bRenderToTextureOnly : Bool
  slateWindow : Option SlateWindowState
  /-- the hit tester, observed through its `WidgetDrawSize` (set via
  `SetWidgetDrawSize`); `none` when no custom hit-test path is installed -/
  customHitTestPath : Option IntPoint
  targetViewport : Option LevelViewport
deriving DecidableEq

namespace FVRFullScreenUserWidget_PostProcess

/-- `FVRFullScreenUserWidget_PostProcess::CalculateWidgetDrawSize` (lines
436-484). -/
def CalculateWidgetDrawSize (env : HostEnv) (pp : PostProcessState) (world : World) :
    IntPoint :=
  if pp.bWidgetDrawSize then pp.widgetDrawSize
  else if world.worldType = .Game ∨ world.worldType = .PIE then
    match world.gameViewport with
    | some viewportClient =>
        let smallWidgetSize : ℚ := 16
        let outSize : Vec2 := viewportClient.viewportSize.getD ⟨smallWidgetSize, smallWidgetSize⟩
        let outSize : Vec2 :=
          if outSize.x < SMALL_NUMBER then ⟨smallWidgetSize, smallWidgetSize⟩ else outSize
        outSize.intPoint
    | none => IntPoint.zeroValue
  else if env.withEditor = true ∧ env.levelEditorLoaded = true then
    match getActiveLevelViewport env pp.targetViewport with
    | some activeLevelViewport =>
        match activeLevelViewport.sharedActiveViewportSize with
        | some size => size
        | none => IntPoint.zeroValue
    | none => IntPoint.zeroValue
  else IntPoint.zeroValue

/-- `FVRFullScreenUserWidget_PostProcess::IsTextureSizeValid` (lines 486-490). -/
def IsTextureSizeValid (env : HostEnv) (size : IntPoint) : Bool :=
  decide (0 < size.x ∧ 0 < size.y ∧
    size.x ≤ env.maxTextureDimension ∧ size.y ≤ env.maxTextureDimension)

end FVRFullScreenUserWidget_PostProcess

/-! ### The custom hit tester (`FVRWidgetPostProcessHitTester`) -/

/-- `FVirtualPointerPosition`. -/
structure VirtualPointerPosition where
  currentCursorPosition : Vec2
  lastCursorPosition : Vec2
deriving DecidableEq

/-- `FWidgetAndPointer`: an arranged widget (by id) with its attached virtual
pointer position. -/
structure WidgetAndPointer where
  widget : ℕ
  pointerPosition : Option VirtualPointerPosition
deriving DecidableEq

/-- The pinned `SVirtualWindow` as the hit tester observes it: its hit-test
grid, i.e. the host-supplied `FHittestGrid::GetBubblePath` query
(local coordinate, cursor radius, ignore-enabled-status flag ↦ widget ids). -/
structure VirtualWindowGrid where
  getBubblePath : Vec2 → ℚ → Bool → List ℕ

/-- The state of `FVRWidgetPostProcessHitTester`.  `slateWindow = none` models
an expired `TWeakPtr<SVirtualWindow>` (pin failure). -/
structure HitTesterState where
  slateWindow : Option VirtualWindowGrid
  widgetDrawSize : IntPoint
  lastLocalHitLocation : Vec2

/-- `FVRWidgetPostProcessHitTester::GetBubblePathAndVirtualCursors` (lines
70-93).  `absoluteToLocal` is the `InGeometry.AbsoluteToLocal` transform of the
passed `FGeometry`.  Returns the arranged widgets together with the updated
hit-tester state (the method mutates `LastLocalHitLocation`). -/
def GetBubblePathAndVirtualCursors (ht : HitTesterState) (absoluteToLocal : Vec2 → Vec2)
    (desktopSpaceCoordinate : Vec2) (bIgnoreEnabledStatus : Bool) :
    List WidgetAndPointer × HitTesterState :=
  match ht.slateWindow with
  | some slateWindowPin =>
      let localMouseCoordinate := absoluteToLocal desktopSpaceCoordinate
      let cursorRadius : ℚ := 0
      let bubble := slateWindowPin.getBubblePath localMouseCoordinate cursorRadius
        bIgnoreEnabledStatus
      let virtualMouseCoordinate : VirtualPointerPosition :=
        { currentCursorPosition := localMouseCoordinate,
          lastCursorPosition := ht.lastLocalHitLocation }
      let arrangedWidgets := bubble.map fun w =>
        { widget := w, pointerPosition := some virtualMouseCoordinate }
      (arrangedWidgets, { ht with lastLocalHitLocation := localMouseCoordinate })
  | none => ([], ht)

/-! ### Post-process display operations -/

/-- An engine call performed by the post-process display; calls whose state the
embedding does not track are recorded as effects in program order. -/
inductive PPEffect where
  | initRenderTarget (size : IntPoint)
  | updateResourceImmediate
  | resizeWindow (size : IntPoint)
  | setHitTesterDrawSize (size : IntPoint)
  | drawWindow (drawScale : ℚ) (size : IntPoint) (deltaSeconds : ℚ)
  | registerComponent
  | unregisterComponent
  | beginCleanupRenderer
  | registerVirtualWindow
  | unregisterVirtualWindow
deriving DecidableEq

/-- Whether an effect is a `DrawWindow` call. -/
def PPEffect.isDrawWindow : PPEffect → Bool
  | .drawWindow _ _ _ => true
  | _ => false

namespace FVRFullScreenUserWidget_PostProcess

/-- `FVRFullScreenUserWidget_PostProcess::RegisterHitTesterWithViewport`
(lines 492-539). -/
def RegisterHitTesterWithViewport (env : HostEnv) (pp : PostProcessState) (world : World) :
    PostProcessState × List PPEffect :=
  let effs :=
    if !pp.bReceiveHardwareInput && env.slateApplicationInitialized then
      [PPEffect.registerVirtualWindow]
    else []
  let engineViewportWidgetPresent : Bool :=
    if world.worldType = .Game ∨ world.worldType = .PIE then
      env.engineGameViewportWidget
    else if env.withEditor = true ∧ env.levelEditorLoaded = true then
      match getActiveLevelViewport env pp.targetViewport with
      | some activeLevelViewport => activeLevelViewport.hasViewportWidget
      | none => false
    else false
  let pp :=
    if engineViewportWidgetPresent && pp.bReceiveHardwareInput
        && !env.existingCustomHitTestPath then
      { pp with customHitTestPath := some pp.currentWidgetDrawSize }
    else pp
  (pp, effs)

/-- `FVRFullScreenUserWidget_PostProcess::UnRegisterHitTesterWithViewport`
(lines 541-558). -/
def UnRegisterHitTesterWithViewport (env : HostEnv) (pp : PostProcessState) :
    PostProcessState × List PPEffect :=
  let effs :=
    if pp.slateWindow.isSome && env.slateApplicationInitialized then
      [PPEffect.unregisterVirtualWindow]
    else []
  ({ pp with customHitTestPath := none }, effs)

/-- `FVRFullScreenUserWidget_PostProcess::ReleaseRenderer` (lines 382-394). -/
def ReleaseRenderer (env : HostEnv) (pp : PostProcessState) :
    PostProcessState × List PPEffect :=
  let effsCleanup :=
    if pp.widgetRenderer.isSome then [PPEffect.beginCleanupRenderer] else []
  let pp := { pp with widgetRenderer := none }
  let un := UnRegisterHitTesterWithViewport env pp
  ({ un.1 with slateWindow := none, widgetRenderTarget := none,
               currentWidgetDrawSize := IntPoint.zeroValue },
   effsCleanup ++ un.2)

/-- `FVRFullScreenUserWidget_PostProcess::CreateRenderer` (lines 319-380).
The widget argument models the `UUserWidget*`; `GameInstance` /
`AssignParentWidget` wiring carries no modelled state. -/
def CreateRenderer (env : HostEnv) (pp : PostProcessState) (world : Option World)
    (widget : Option Unit) (inDPIScale : ℚ) :
    Bool × PostProcessState × List PPEffect :=
  let rel := ReleaseRenderer env pp
  let pp := rel.1
  match world, widget with
  | some w, some _ =>
      let calculatedWidgetSize := CalculateWidgetDrawSize env pp w
      if IsTextureSizeValid env calculatedWidgetSize then
        let pp := { pp with
          currentWidgetDrawSize := calculatedWidgetSize,
          widgetRenderer := some { bApplyGammaCorrection := true, bIsPrepassNeeded := true },
          slateWindow := some
            { size := calculatedWidgetSize,
              bIsFocusable := pp.bWindowFocusable,
              visibility := convertWindowVisibilityToVisibility pp.windowVisibility,
              contentDPIScale := inDPIScale } }
        let reg := RegisterHitTesterWithViewport env pp w
        let pp := reg.1
        let actualBackgroundColor : LinearColor :=
          match pp.renderTargetBlendMode with
          | .Opaque => { pp.renderTargetBackgroundColor with a := 1 }
          | .Masked => { pp.renderTargetBackgroundColor with a := 0 }
          | .Transparent => pp.renderTargetBackgroundColor
        let rt : RenderTarget :=
          { sizeX := calculatedWidgetSize.x, sizeY := calculatedWidgetSize.y,
            clearColor := actualBackgroundColor }
        let pp := { pp with widgetRenderTarget := some rt }
        let instWithTexture := pp.postProcessMaterialInstance.map
          (fun mid => ({ mid with slateUITexture := some pp.widgetRenderTarget }))
        let pp :=
          if !pp.bRenderToTextureOnly && pp.postProcessMaterialInstance.isSome then
            { pp with postProcessMaterialInstance := instWithTexture }
          else pp
        (pp.widgetRenderer.isSome && pp.widgetRenderTarget.isSome, pp,
         rel.2 ++ reg.2 ++
           [PPEffect.initRenderTarget calculatedWidgetSize, PPEffect.updateResourceImmediate])
      else
        (pp.widgetRenderer.isSome && pp.widgetRenderTarget.isSome, pp, rel.2)
  | _, _ =>
      (pp.widgetRenderer.isSome && pp.widgetRenderTarget.isSome, pp, rel.2)

/-- `FVRFullScreenUserWidget_PostProcess::ReleasePostProcessComponent`
(lines 309-317). -/
def ReleasePostProcessComponent (pp : PostProcessState) :
    PostProcessState × List PPEffect :=
  let effs := if pp.postProcessComponent.isSome then [PPEffect.unregisterComponent] else []
  ({ pp with postProcessComponent := none, postProcessMaterialInstance := none }, effs)

/-- `FVRFullScreenUserWidget_PostProcess::CreatePostProcessComponent`
(lines 283-307). -/
def CreatePostProcessComponent (pp : PostProcessState)
    (world : Option World) : Bool × PostProcessState × List PPEffect :=
  let rel := ReleasePostProcessComponent pp
  let pp := rel.1
  match world, pp.postProcessMaterial with
  | some _, some mat =>
      let mid : MaterialInstanceState :=
        { parent := mat,
          slateUITexture := some pp.widgetRenderTarget,
          tintColorAndOpacity := some pp.postProcessTintColorAndOpacity,
          opacityFromTexture := some pp.postProcessOpacityFromTexture }
      let comp : PostProcessComponentState :=
        { bEnabled := true, bUnbound := true, bRegistered := true,
          weightedBlendables := [(1, some mid)] }
      let pp := { pp with postProcessComponent := some comp,
                          postProcessMaterialInstance := some mid }
      (pp.postProcessComponent.isSome && pp.postProcessMaterialInstance.isSome, pp,
       rel.2 ++ [PPEffect.registerComponent])
  | _, _ =>
      (pp.postProcessComponent.isSome && pp.postProcessMaterialInstance.isSome, pp,
       rel.2)

/-- `FVRFullScreenUserWidget_PostProcess::Hide` (lines 263-271).  The `World`
argument is unused beyond being forwarded to the engine release calls. -/
def Hide (env : HostEnv) (pp : PostProcessState) (_world : Option World) :
    PostProcessState × List PPEffect :=
  let relComp :=
    if !pp.bRenderToTextureOnly then ReleasePostProcessComponent pp else (pp, [])
  let relRend := ReleaseRenderer env relComp.1
  (relRend.1, relComp.2 ++ relRend.2)

/-- `FVRFullScreenUserWidget_PostProcess::TickRenderer` (lines 396-434). -/
def TickRenderer (env : HostEnv) (pp : PostProcessState) (world : World)
    (deltaSeconds : ℚ) : PostProcessState × List PPEffect :=
  match pp.widgetRenderTarget with
  | none => (pp, [])
  | some rt =>
      let drawScale : ℚ := 1
      let newCalculatedWidgetSize := CalculateWidgetDrawSize env pp world
      let step : PostProcessState × List PPEffect :=
        if newCalculatedWidgetSize ≠ pp.currentWidgetDrawSize then
          if IsTextureSizeValid env newCalculatedWidgetSize then
            let pp := { pp with
              currentWidgetDrawSize := newCalculatedWidgetSize,
              widgetRenderTarget := some ({ rt with
                sizeX := newCalculatedWidgetSize.x, sizeY := newCalculatedWidgetSize.y }),
              slateWindow := pp.slateWindow.map fun w =>
                { w with size := newCalculatedWidgetSize },
              customHitTestPath := pp.customHitTestPath.map fun _ =>
                newCalculatedWidgetSize }
            (pp, [PPEffect.initRenderTarget newCalculatedWidgetSize,
                  PPEffect.updateResourceImmediate,
                  PPEffect.resizeWindow newCalculatedWidgetSize] ++
                 (if pp.customHitTestPath.isSome then
                    [PPEffect.setHitTesterDrawSize newCalculatedWidgetSize]
                  else []))
          else
            Hide env pp (some world)
        else (pp, [])
      if step.1.widgetRenderer.isSome then
        (step.1, step.2 ++
          [PPEffect.drawWindow drawScale step.1.currentWidgetDrawSize deltaSeconds])
      else (step.1, step.2)

/-- `FVRFullScreenUserWidget_PostProcess::Display` (lines 250-261). -/
def Display (env : HostEnv) (pp : PostProcessState) (world : Option World)
    (widget : Option Unit) (bInRenderToTextureOnly : Bool) (inDPIScale : ℚ) :
    Bool × PostProcessState × List PPEffect :=
  let pp := { pp with bRenderToTextureOnly := bInRenderToTextureOnly }
  let cr := CreateRenderer env pp world widget inDPIScale
  let pp := cr.2.1
  if !pp.bRenderToTextureOnly then
    let cpc := CreatePostProcessComponent pp world
    (cr.1 && cpc.1, cpc.2.1, cr.2.2 ++ cpc.2.2)
  else (cr.1, pp, cr.2.2)

/-- `FVRFullScreenUserWidget_PostProcess::Tick` (lines 273-276). -/
def Tick (env : HostEnv) (pp : PostProcessState) (world : World) (deltaSeconds : ℚ) :
    PostProcessState × List PPEffect :=
  TickRenderer env pp world deltaSeconds

end FVRFullScreenUserWidget_PostProcess

/-! ### Viewport display path (`FVRFullScreenUserWidget_Viewport`) -/

/-- The state of `FVRFullScreenUserWidget_Viewport`.  The full-screen
`SConstraintCanvas` is observed through the validity of its weak pointer. -/
structure ViewportState where
  bAddedToGameViewport : Bool
  fullScreenCanvasWidget : Option Unit
  targetViewport : Option LevelViewport
  overlayWidgetLevelViewport : Option LevelViewport
deriving DecidableEq

namespace FVRFullScreenUserWidget_Viewport

/-- `FVRFullScreenUserWidget_Viewport::FVRFullScreenUserWidget_Viewport`
(lines 124-127). -/
def ctor : ViewportState :=
  { bAddedToGameViewport := false, fullScreenCanvasWidget := none,
    targetViewport := none, overlayWidgetLevelViewport := none }

/-- `FVRFullScreenUserWidget_Viewport::Display` (lines 129-196). -/
def Display (env : HostEnv) (vs : ViewportState) (world : Option World)
    (widget : Option Unit) (_inDPIScale : ℚ) : Bool × ViewportState :=
  if widget.isNone || world.isNone || vs.fullScreenCanvasWidget.isSome then (false, vs)
  else
    match world with
    | none => (false, vs)
    | some w =>
        if w.worldType = .Game ∨ w.worldType = .PIE then
          match w.gameViewport with
          | some _ => (true, { vs with fullScreenCanvasWidget := some () })
          | none => (false, vs)
        else if env.withEditor = true ∧ env.levelEditorLoaded = true then
          match getActiveLevelViewport env vs.targetViewport with
          | some activeLevelViewport =>
              (true, { vs with fullScreenCanvasWidget := some (),
                               overlayWidgetLevelViewport := some activeLevelViewport })
          | none => (false, vs)
        else (false, vs)

/-- `FVRFullScreenUserWidget_Viewport::Hide` (lines 198-221). -/
def Hide (vs : ViewportState) (_world : Option World) : ViewportState :=
  if vs.fullScreenCanvasWidget.isSome then
    { vs with fullScreenCanvasWidget := none, overlayWidgetLevelViewport := none }
  else vs

/-- `FVRFullScreenUserWidget_Viewport::Tick` (lines 223-226): does nothing. -/
def Tick (vs : ViewportState) (_world : World) (_deltaSeconds : ℚ) : ViewportState :=
  vs

end FVRFullScreenUserWidget_Viewport

/-! ### The `UVRFullScreenUserWidget` object -/

/-- The state of `UVRFullScreenUserWidget` (the fields the translation unit
reads or writes). -/
structure WidgetState where
  currentDisplayType : EVRWidgetDisplayType
  bDisplayRequested : Bool
  /-- `WidgetClass` (by id; `none` = unset) -/
  widgetClass : Option ℕ
  /-- the created `UUserWidget` -/
  widget : Option Unit
  /-- `TWeakObjectPtr<UWorld> World`; `none` models both null and stale -/
  world : Option World
  editorDisplayType : EVRWidgetDisplayType
  gameDisplayType : EVRWidgetDisplayType
  pieDisplayType : EVRWidgetDisplayType
  viewportDisplay : ViewportState
  postProcessDisplay : PostProcessState
  targetViewport : Option LevelViewport
  /-- whether `OnLevelRemovedFromWorld` is bound to `FWorldDelegates::LevelRemovedFromWorld` -/
  levelRemovedDelegateBound : Bool
deriving DecidableEq

namespace UVRFullScreenUserWidget

/-- `FVRFullScreenUserWidget_PostProcess::FVRFullScreenUserWidget_PostProcess`
(lines 231-248), with `PostProcessMaterial` then assigned from the
constructor-helper finder by the `UVRFullScreenUserWidget` constructor
(lines 563-571). -/
def initialPostProcessState (foundMaterial : Option ℕ) : PostProcessState :=
  { postProcessMaterial := foundMaterial,
    postProcessTintColorAndOpacity := LinearColor.white,
    postProcessOpacityFromTexture := 1,
    bWidgetDrawSize := false,
    widgetDrawSize := ⟨640, 360⟩,
    bWindowFocusable := true,
    windowVisibility := .SelfHitTestInvisible,
    bReceiveHardwareInput := false,
    renderTargetBackgroundColor := ⟨0, 0, 0, 1⟩,
    renderTargetBlendMode := .Masked,
    widgetRenderTarget := none,
    postProcessComponent := none,
    postProcessMaterialInstance := none,
    widgetRenderer := none,
    currentWidgetDrawSize := IntPoint.zeroValue,
    bRenderToTextureOnly := false,
    slateWindow := none,
    customHitTestPath := none,
    targetViewport := none }

/-- `UVRFullScreenUserWidget::UVRFullScreenUserWidget` (lines 563-571); the
display-type configuration and `WidgetClass` come from class defaults (the
header is outside this translation unit), so they are parameters. -/
def initialWidgetState (foundMaterial : Option ℕ) (widgetClass : Option ℕ)
    (editorDT gameDT pieDT : EVRWidgetDisplayType) : WidgetState :=
  { currentDisplayType := .Inactive,
    bDisplayRequested := false,
    widgetClass := widgetClass,
    widget := none,
    world := none,
    editorDisplayType := editorDT,
    gameDisplayType := gameDT,
    pieDisplayType := pieDT,
    viewportDisplay := FVRFullScreenUserWidget_Viewport.ctor,
    postProcessDisplay := initialPostProcessState foundMaterial,
    targetViewport := none,
    levelRemovedDelegateBound := false }

/-- `UVRFullScreenUserWidget::GetDisplayType` (lines 593-613). -/
def GetDisplayType (env : HostEnv) (ws : WidgetState) (inWorld : Option World) :
    EVRWidgetDisplayType :=
  match inWorld with
  | some w =>
      if w.worldType = .Game then ws.gameDisplayType
      else if env.withEditor = true ∧ w.worldType = .PIE then ws.pieDisplayType
      else if env.withEditor = true ∧ w.worldType = .Editor then ws.editorDisplayType
      else .Inactive
  | none => .Inactive

/-- `UVRFullScreenUserWidget::ShouldDisplay` (lines 579-591). -/
def ShouldDisplay (env : HostEnv) (ws : WidgetState) (inWorld : Option World) : Bool :=
  if env.ueServer then false
  else if env.usingNullRHI || env.isArchetypeOrCDO || env.isDedicatedServer then false
  else decide (GetDisplayType env ws inWorld ≠ .Inactive)

/-- `UVRFullScreenUserWidget::IsDisplayed` (lines 615-618). -/
def IsDisplayed (ws : WidgetState) : Bool :=
  decide (ws.currentDisplayType ≠ .Inactive)

/-- `UVRFullScreenUserWidget::InitWidget` (lines 738-750). -/
def InitWidget (env : HostEnv) (ws : WidgetState) : WidgetState :=
  if env.slateApplicationInitialized && ws.widgetClass.isSome && ws.widget.isNone then
    { ws with widget := some () }
  else ws

/-- `UVRFullScreenUserWidget::ReleaseWidget` (lines 752-755). -/
def ReleaseWidget (ws : WidgetState) : WidgetState :=
  { ws with widget := none }

/-- `UVRFullScreenUserWidget::Display` (lines 620-683). -/
def Display (env : HostEnv) (ws : WidgetState) (inWorld : Option World) :
    Bool × WidgetState :=
  let ws := { ws with bDisplayRequested := true, world := inWorld }
  if inWorld.isSome && ws.widgetClass.isSome && ShouldDisplay env ws inWorld
      && decide (ws.currentDisplayType = .Inactive) then
    let dt := GetDisplayType env ws inWorld
    let ws := { ws with currentDisplayType := dt }
    let ws := InitWidget env ws
    let dpiScale := env.dpiScale
    let res : Bool × WidgetState :=
      match dt with
      | .Viewport =>
          let r :=
            FVRFullScreenUserWidget_Viewport.Display env ws.viewportDisplay inWorld
              ws.widget dpiScale
          (r.1, { ws with viewportDisplay := r.2 })
      | .PostProcess =>
          let r :=
            FVRFullScreenUserWidget_PostProcess.Display env ws.postProcessDisplay inWorld
              ws.widget false dpiScale
          (r.1, { ws with postProcessDisplay := r.2.1 })
      | .Inactive => (false, ws)
    (res.1, if res.1 then { res.2 with levelRemovedDelegateBound := true } else res.2)
  else (false, ws)

/-- `UVRFullScreenUserWidget::Hide` (lines 685-706). -/
def Hide (env : HostEnv) (ws : WidgetState) : WidgetState :=
  let ws := { ws with bDisplayRequested := false }
  let ws :=
    if ws.currentDisplayType ≠ .Inactive then
      let ws := ReleaseWidget ws
      let ws := { ws with levelRemovedDelegateBound := false }
      let ws :=
        match ws.currentDisplayType with
        | .Viewport =>
            { ws with viewportDisplay :=
                FVRFullScreenUserWidget_Viewport.Hide ws.viewportDisplay ws.world }
        | .PostProcess =>
            { ws with postProcessDisplay :=
                (FVRFullScreenUserWidget_PostProcess.Hide env ws.postProcessDisplay
                  ws.world).1 }
        | .Inactive => ws
      { ws with currentDisplayType := .Inactive }
    else ws
  { ws with world := none }

/-- `UVRFullScreenUserWidget::BeginDestroy` (lines 573-577). -/
def BeginDestroy (env : HostEnv) (ws : WidgetState) : WidgetState :=
  Hide env ws

/-- `UVRFullScreenUserWidget::Tick` (lines 708-729). -/
def Tick (env : HostEnv) (ws : WidgetState) (deltaSeconds : ℚ) : WidgetState :=
  if ws.currentDisplayType ≠ .Inactive then
    match ws.world with
    | none => Hide env ws
    | some w =>
        match ws.currentDisplayType with
        | .Viewport =>
            { ws with viewportDisplay :=
                FVRFullScreenUserWidget_Viewport.Tick ws.viewportDisplay w deltaSeconds }
        | .PostProcess =>
            { ws with postProcessDisplay :=
                (FVRFullScreenUserWidget_PostProcess.Tick env ws.postProcessDisplay w
                  deltaSeconds).1 }
        | .Inactive => ws
  else ws

/-- `UVRFullScreenUserWidget::OnLevelRemovedFromWorld` (lines 757-765); levels
carry no modelled state, so `inLevel` is `Option Unit`. -/
def OnLevelRemovedFromWorld (env : HostEnv) (ws : WidgetState) (inLevel : Option Unit)
    (inWorld : Option World) : WidgetState :=
  match inLevel, inWorld, ws.world with
  | none, some w, some trackedWorld =>
      if w.id = trackedWorld.id then Hide env ws else ws
  | _, _, _ => ws

end UVRFullScreenUserWidget

/-! ### Mode-exclusivity invariant -/

/-- The viewport-overlay presentation is active: the full-screen canvas weak
pointer pins. -/
def ViewportPathActive (ws : WidgetState) : Prop :=
  ws.viewportDisplay.fullScreenCanvasWidget.isSome = true

/-- The post-process presentation holds live resources: a render target, a
widget renderer, a virtual window or a registered post-process component. -/
def PostProcessPathActive (ws : WidgetState) : Prop :=
  ws.postProcessDisplay.widgetRenderTarget.isSome = true ∨
  ws.postProcessDisplay.widgetRenderer.isSome = true ∨
  ws.postProcessDisplay.slateWindow.isSome = true ∨
  ws.postProcessDisplay.postProcessComponent.isSome = true

/-- Each active path is the one recorded in `CurrentDisplayType`. -/
def ModeConsistent (ws : WidgetState) : Prop :=
  (ViewportPathActive ws → ws.currentDisplayType = EVRWidgetDisplayType.Viewport) ∧
  (PostProcessPathActive ws → ws.currentDisplayType = EVRWidgetDisplayType.PostProcess)

/-- The invariant preserved by the public operations: mode consistency plus the
fact that the widget never runs the (Composure-only) render-to-texture-only
post-process mode, which `UVRFullScreenUserWidget` always passes as false. -/
def DisplayInv (ws : WidgetState) : Prop :=
  ModeConsistent ws ∧ ws.postProcessDisplay.bRenderToTextureOnly = false

/-! ### Sample host environments and states, used to instantiate theorems -/

/-- A fully-featured host environment (editor build, slate up, RHI present). -/
def sampleEnv : HostEnv :=
  { withEditor := true, levelEditorLoaded := true,
    firstActiveLevelViewport :=
      some { sharedActiveViewportSize := some ⟨1280, 720⟩, hasViewportWidget := true },
    ueServer := false, usingNullRHI := false, isArchetypeOrCDO := false,
    isDedicatedServer := false, slateApplicationInitialized := true,
    engineGameViewportWidget := true, existingCustomHitTestPath := false,
    maxTextureDimension := 16384, dpiScale := 1 }

/-- A game world whose viewport reports an 800x600 size. -/
def sampleGameWorld : World :=
  { id := 1, worldType := .Game, gameViewport := some { viewportSize := some ⟨800, 600⟩ } }

/-- A game world whose game viewport is gone. -/
def sampleViewportlessWorld : World :=
  { id := 2, worldType := .Game, gameViewport := none }

/-- The post-process state as constructed, with a found material. -/
def samplePP : PostProcessState := UVRFullScreenUserWidget.initialPostProcessState (some 7)

/-- A concrete hit-test grid returning two widgets on every query. -/
def sampleGrid : VirtualWindowGrid := ⟨fun _ _ _ => [1, 2]⟩

/-- A hit tester pinned to `sampleGrid` with a stored last hit location. -/
def sampleHitTester : HitTesterState :=
  { slateWindow := some sampleGrid, widgetDrawSize := ⟨640, 360⟩,
    lastLocalHitLocation := ⟨3, 4⟩ }

/-- A post-process state with a live 640x360 renderer, window and render
target, pinned to the manual draw size. -/
def samplePPActive : PostProcessState :=
  { samplePP with
    bWidgetDrawSize := true,
    widgetDrawSize := ⟨640, 360⟩,
    currentWidgetDrawSize := ⟨640, 360⟩,
    widgetRenderTarget := some ⟨640, 360, ⟨0, 0, 0, 0⟩⟩,
    widgetRenderer := some ⟨true, true⟩,
    slateWindow := some ⟨⟨640, 360⟩, true, .SelfHitTestInvisible, 1⟩ }

/-- `samplePPActive` with the draw-size override off, so the draw size is
recalculated from the world. -/
def samplePPStale : PostProcessState :=
  { samplePPActive with bWidgetDrawSize := false }

/-- A widget object state actively displaying the post-process path in
`sampleGameWorld`. -/
def sampleWS : WidgetState :=
  { UVRFullScreenUserWidget.initialWidgetState (some 7) (some 3)
      .PostProcess .PostProcess .PostProcess with
    currentDisplayType := .PostProcess,
    bDisplayRequested := true,
    widget := some (),
    world := some sampleGameWorld,
    postProcessDisplay := samplePPActive,
    levelRemovedDelegateBound := true }

/-! ### Theorems -/

/-- C1: `CalculateWidgetDrawSize` returns the manual override `WidgetDrawSize`
whenever `bWidgetDrawSize` is set; otherwise for a Game/PIE world with a game
viewport it returns that viewport's size, except that a size whose X component
is below `SMALL_NUMBER` is replaced by the 16x16 fallback; otherwise, in an
editor build with the level-editor module loaded and an active level viewport
with a scene viewport, it returns that viewport's size; and in every remaining
case it returns (0,0). -/
theorem calculateWidgetDrawSize_spec (env : HostEnv) (pp : PostProcessState) (w : World) :
    (pp.bWidgetDrawSize = true →
      FVRFullScreenUserWidget_PostProcess.CalculateWidgetDrawSize env pp w =
        pp.widgetDrawSize) ∧
    (pp.bWidgetDrawSize = false → (w.worldType = .Game ∨ w.worldType = .PIE) →
      ∀ vc, w.gameViewport = some vc → ∀ sz, vc.viewportSize = some sz →
        FVRFullScreenUserWidget_PostProcess.CalculateWidgetDrawSize env pp w =
          if sz.x < SMALL_NUMBER then (⟨16, 16⟩ : IntPoint) else sz.intPoint) ∧
    (pp.bWidgetDrawSize = false → ¬(w.worldType = .Game ∨ w.worldType = .PIE) →
      env.withEditor = true → env.levelEditorLoaded = true →
      ∀ lv, getActiveLevelViewport env pp.targetViewport = some lv →
        ∀ sz, lv.sharedActiveViewportSize = some sz →
          FVRFullScreenUserWidget_PostProcess.CalculateWidgetDrawSize env pp w = sz) ∧
    (pp.bWidgetDrawSize = false →
      ((w.worldType = .Game ∨ w.worldType = .PIE) ∧ w.gameViewport = none) ∨
      (¬(w.worldType = .Game ∨ w.worldType = .PIE) ∧
        (env.withEditor = false ∨ env.levelEditorLoaded = false ∨
         getActiveLevelViewport env pp.targetViewport = none ∨
         (∃ lv, getActiveLevelViewport env pp.targetViewport = some lv ∧
            lv.sharedActiveViewportSize = none))) →
      FVRFullScreenUserWidget_PostProcess.CalculateWidgetDrawSize env pp w =
        IntPoint.zeroValue) := by
  unfold FVRFullScreenUserWidget_PostProcess.CalculateWidgetDrawSize
  refine ⟨fun h => by simp [h], ?_, ?_, ?_⟩
  · intro h hw vc hvc sz hsz
    simp only [h, Bool.false_eq_true, if_false, if_pos hw, hvc, hsz, Option.getD_some]
    split_ifs with hlt
    · decide
    · rfl
  · intro h hw hed hmod lv hlv sz hsz
    simp only [h, Bool.false_eq_true, if_false, if_neg hw, hlv, hsz,
      if_pos (And.intro hed hmod)]
  · intro h hcase
    simp only [h, Bool.false_eq_true, if_false]
    rcases hcase with ⟨hw, hv⟩ | ⟨hw, hrest⟩
    · rw [if_pos hw, hv]
    · rw [if_neg hw]
      rcases hrest with he | he | he | ⟨lv, hlv, hsz⟩
      · rw [if_neg (by simp [he])]
      · rw [if_neg (by simp [he])]
      · split_ifs with hc
        · rw [he]
        · rfl
      · split_ifs with hc
        · simp [hlv, hsz]
        · rfl

/-- Witness for C1: concrete evaluations through the theorem, one per branch. -/
theorem calculateWidgetDrawSize_spec_witness :
    FVRFullScreenUserWidget_PostProcess.CalculateWidgetDrawSize sampleEnv samplePP
        sampleGameWorld = ⟨800, 600⟩ ∧
    FVRFullScreenUserWidget_PostProcess.CalculateWidgetDrawSize sampleEnv samplePP
        sampleViewportlessWorld = IntPoint.zeroValue := by
  constructor
  · have h := (calculateWidgetDrawSize_spec sampleEnv samplePP sampleGameWorld).2.1
      (by decide) (Or.inl rfl) _ rfl _ rfl
    rw [h]; decide
  · exact (calculateWidgetDrawSize_spec sampleEnv samplePP sampleViewportlessWorld).2.2.2
      (by decide) (Or.inl ⟨Or.inl rfl, rfl⟩)

/-- C2: `GetBubblePathAndVirtualCursors` converts the desktop coordinate to the
window's local space via `AbsoluteToLocal`, queries the hit-test grid with
cursor radius 0, attaches to every widget of the bubble path the one virtual
pointer position (current = the local coordinate, last = the location stored by
the previous call), and stores the local coordinate as the new last hit
location; when the virtual window has expired it returns the empty array and
leaves the state unchanged. -/
theorem getBubblePathAndVirtualCursors_spec (ht : HitTesterState)
    (absoluteToLocal : Vec2 → Vec2) (desktopSpaceCoordinate : Vec2)
    (bIgnoreEnabledStatus : Bool) :
    (∀ win, ht.slateWindow = some win →
      (GetBubblePathAndVirtualCursors ht absoluteToLocal desktopSpaceCoordinate
          bIgnoreEnabledStatus).1.map WidgetAndPointer.widget =
        win.getBubblePath (absoluteToLocal desktopSpaceCoordinate) 0
          bIgnoreEnabledStatus ∧
      (∀ entry ∈ (GetBubblePathAndVirtualCursors ht absoluteToLocal
          desktopSpaceCoordinate bIgnoreEnabledStatus).1,
        entry.pointerPosition =
          some { currentCursorPosition := absoluteToLocal desktopSpaceCoordinate,
                 lastCursorPosition := ht.lastLocalHitLocation }) ∧
      (GetBubblePathAndVirtualCursors ht absoluteToLocal desktopSpaceCoordinate
          bIgnoreEnabledStatus).2.lastLocalHitLocation =
        absoluteToLocal desktopSpaceCoordinate ∧
      (GetBubblePathAndVirtualCursors ht absoluteToLocal desktopSpaceCoordinate
          bIgnoreEnabledStatus).2.slateWindow = ht.slateWindow ∧
      (GetBubblePathAndVirtualCursors ht absoluteToLocal desktopSpaceCoordinate
          bIgnoreEnabledStatus).2.widgetDrawSize = ht.widgetDrawSize) ∧
    (ht.slateWindow = none →
      GetBubblePathAndVirtualCursors ht absoluteToLocal desktopSpaceCoordinate
        bIgnoreEnabledStatus = ([], ht)) := by
  constructor
  · intro win hwin
    simp only [GetBubblePathAndVirtualCursors, hwin]
    refine ⟨?_, ?_, by trivial, by trivial, by trivial⟩
    · rw [List.map_map]
      exact List.map_id _
    · intro entry hentry
      simp only [List.mem_map] at hentry
      obtain ⟨w, _, rfl⟩ := hentry
      rfl
  · intro hnone
    simp [GetBubblePathAndVirtualCursors, hnone]

/-- Witness for C2: concrete query through the theorem. -/
theorem getBubblePathAndVirtualCursors_spec_witness :
    (GetBubblePathAndVirtualCursors sampleHitTester (fun v => v) ⟨5, 6⟩ true).1.map
        WidgetAndPointer.widget = [1, 2] ∧
    (GetBubblePathAndVirtualCursors sampleHitTester (fun v => v) ⟨5, 6⟩
        true).2.lastLocalHitLocation = ⟨5, 6⟩ := by
  have h := (getBubblePathAndVirtualCursors_spec sampleHitTester (fun v => v) ⟨5, 6⟩
    true).1 sampleGrid rfl
  exact ⟨h.1, h.2.2.1⟩

/-- C5: with a non-null world and post-process material,
`CreatePostProcessComponent` creates a dynamic material instance of
`PostProcessMaterial`, immediately sets its `SlateUI` texture parameter to
`WidgetRenderTarget`, its `TintColorAndOpacity` vector parameter and its
`OpacityFromTexture` scalar parameter, and installs the instance as the single
weighted blendable with weight 1 on an enabled, unbound, registered
post-process component; the function returns true iff both the component and
the material instance were created. -/
theorem createPostProcessComponent_spec (pp : PostProcessState) (world : Option World) :
    (∀ w, world = some w → ∀ mat, pp.postProcessMaterial = some mat →
      ∃ mid comp,
        (FVRFullScreenUserWidget_PostProcess.CreatePostProcessComponent pp
            world).2.1.postProcessMaterialInstance = some mid ∧
        (FVRFullScreenUserWidget_PostProcess.CreatePostProcessComponent pp
            world).2.1.postProcessComponent = some comp ∧
        mid.parent = mat ∧
        mid.slateUITexture = some pp.widgetRenderTarget ∧
        mid.tintColorAndOpacity = some pp.postProcessTintColorAndOpacity ∧
        mid.opacityFromTexture = some pp.postProcessOpacityFromTexture ∧
        comp.bEnabled = true ∧ comp.bUnbound = true ∧ comp.bRegistered = true ∧
        comp.weightedBlendables = [(1, some mid)]) ∧
    (FVRFullScreenUserWidget_PostProcess.CreatePostProcessComponent pp world).1 =
      ((FVRFullScreenUserWidget_PostProcess.CreatePostProcessComponent pp
          world).2.1.postProcessComponent.isSome &&
       (FVRFullScreenUserWidget_PostProcess.CreatePostProcessComponent pp
          world).2.1.postProcessMaterialInstance.isSome) := by
  constructor
  · intro w hw mat hmat
    subst hw
    refine ⟨⟨mat, some pp.widgetRenderTarget, some pp.postProcessTintColorAndOpacity,
        some pp.postProcessOpacityFromTexture⟩,
      ⟨true, true, true, [(1, some ⟨mat, some pp.widgetRenderTarget,
        some pp.postProcessTintColorAndOpacity, some pp.postProcessOpacityFromTexture⟩)]⟩,
      ?_, ?_, rfl, rfl, rfl, rfl, rfl, rfl, rfl, rfl⟩ <;>
      simp [FVRFullScreenUserWidget_PostProcess.CreatePostProcessComponent,
        FVRFullScreenUserWidget_PostProcess.ReleasePostProcessComponent, hmat]
  · rcases world with _ | w <;>
      rcases hmat : pp.postProcessMaterial with _ | mat <;>
      simp [FVRFullScreenUserWidget_PostProcess.CreatePostProcessComponent,
        FVRFullScreenUserWidget_PostProcess.ReleasePostProcessComponent, hmat]

/-- Witness for C5: on the sample state the call succeeds. -/
theorem createPostProcessComponent_spec_witness :
    (FVRFullScreenUserWidget_PostProcess.CreatePostProcessComponent samplePP
        (some sampleGameWorld)).1 = true := by
  obtain ⟨mid, comp, hmid, hcomp, _⟩ :=
    (createPostProcessComponent_spec samplePP (some sampleGameWorld)).1
      sampleGameWorld rfl 7 rfl
  rw [(createPostProcessComponent_spec samplePP (some sampleGameWorld)).2, hmid, hcomp]
  rfl

/-- C10: `UVRFullScreenUserWidget::Hide` is idempotent: after any call,
`IsDisplayed` is false, `CurrentDisplayType` is `Inactive`, the display request
flag is cleared and the tracked world reference is reset, and a second
consecutive `Hide` changes nothing. -/
theorem hide_idempotent (env : HostEnv) (ws : WidgetState) :
    UVRFullScreenUserWidget.IsDisplayed (UVRFullScreenUserWidget.Hide env ws) = false ∧
    (UVRFullScreenUserWidget.Hide env ws).currentDisplayType =
      EVRWidgetDisplayType.Inactive ∧
    (UVRFullScreenUserWidget.Hide env ws).bDisplayRequested = false ∧
    (UVRFullScreenUserWidget.Hide env ws).world = none ∧
    UVRFullScreenUserWidget.Hide env (UVRFullScreenUserWidget.Hide env ws) =
      UVRFullScreenUserWidget.Hide env ws := by
  cases hdt : ws.currentDisplayType <;>
    simp [UVRFullScreenUserWidget.Hide, UVRFullScreenUserWidget.IsDisplayed,
      UVRFullScreenUserWidget.ReleaseWidget, hdt]

/-- Fields of the post-process state after `Hide`: the renderer, render
target, virtual window and hit tester are all released. -/
theorem postProcess_hide_fields (env : HostEnv) (pp : PostProcessState)
    (world : Option World) :
    (FVRFullScreenUserWidget_PostProcess.Hide env pp world).1.widgetRenderer = none ∧
    (FVRFullScreenUserWidget_PostProcess.Hide env pp world).1.widgetRenderTarget = none ∧
    (FVRFullScreenUserWidget_PostProcess.Hide env pp world).1.slateWindow = none ∧
    (FVRFullScreenUserWidget_PostProcess.Hide env pp world).1.customHitTestPath = none ∧
    (FVRFullScreenUserWidget_PostProcess.Hide env pp world).1.currentWidgetDrawSize =
      IntPoint.zeroValue := by
  by_cases h : pp.bRenderToTextureOnly <;>
    simp [FVRFullScreenUserWidget_PostProcess.Hide,
      FVRFullScreenUserWidget_PostProcess.ReleaseRenderer,
      FVRFullScreenUserWidget_PostProcess.UnRegisterHitTesterWithViewport,
      FVRFullScreenUserWidget_PostProcess.ReleasePostProcessComponent, h]

/-- C3: on a `TickRenderer` with a valid render target, if the newly calculated
widget draw size differs from `CurrentWidgetDrawSize` and is valid, the render
target is re-initialized to the new size, the virtual window is resized to it
and the hit tester (when present) is updated to it, so `CurrentWidgetDrawSize`
equals the calculated size; if the differing new size is invalid, the
post-process display hides itself instead. -/
theorem tickRenderer_sync (env : HostEnv) (pp : PostProcessState) (world : World)
    (deltaSeconds : ℚ) (rt : RenderTarget) (hrt : pp.widgetRenderTarget = some rt) :
    (FVRFullScreenUserWidget_PostProcess.CalculateWidgetDrawSize env pp world ≠
        pp.currentWidgetDrawSize →
      FVRFullScreenUserWidget_PostProcess.IsTextureSizeValid env
        (FVRFullScreenUserWidget_PostProcess.CalculateWidgetDrawSize env pp world) =
          true →
      (FVRFullScreenUserWidget_PostProcess.TickRenderer env pp world
          deltaSeconds).1.currentWidgetDrawSize =
        FVRFullScreenUserWidget_PostProcess.CalculateWidgetDrawSize env pp world ∧
      (FVRFullScreenUserWidget_PostProcess.TickRenderer env pp world
          deltaSeconds).1.widgetRenderTarget =
        some ({ rt with
          sizeX := (FVRFullScreenUserWidget_PostProcess.CalculateWidgetDrawSize env pp
            world).x,
          sizeY := (FVRFullScreenUserWidget_PostProcess.CalculateWidgetDrawSize env pp
            world).y }) ∧
      (FVRFullScreenUserWidget_PostProcess.TickRenderer env pp world
          deltaSeconds).1.slateWindow =
        pp.slateWindow.map (fun w => { w with
          size := FVRFullScreenUserWidget_PostProcess.CalculateWidgetDrawSize env pp
            world }) ∧
      (pp.customHitTestPath.isSome = true →
        (FVRFullScreenUserWidget_PostProcess.TickRenderer env pp world
            deltaSeconds).1.customHitTestPath =
          some (FVRFullScreenUserWidget_PostProcess.CalculateWidgetDrawSize env pp
            world)) ∧
      PPEffect.initRenderTarget
          (FVRFullScreenUserWidget_PostProcess.CalculateWidgetDrawSize env pp world) ∈
        (FVRFullScreenUserWidget_PostProcess.TickRenderer env pp world deltaSeconds).2 ∧
      PPEffect.resizeWindow
          (FVRFullScreenUserWidget_PostProcess.CalculateWidgetDrawSize env pp world) ∈
        (FVRFullScreenUserWidget_PostProcess.TickRenderer env pp world deltaSeconds).2) ∧
    (FVRFullScreenUserWidget_PostProcess.CalculateWidgetDrawSize env pp world ≠
        pp.currentWidgetDrawSize →
      FVRFullScreenUserWidget_PostProcess.IsTextureSizeValid env
        (FVRFullScreenUserWidget_PostProcess.CalculateWidgetDrawSize env pp world) =
          false →
      (FVRFullScreenUserWidget_PostProcess.TickRenderer env pp world deltaSeconds).1 =
        (FVRFullScreenUserWidget_PostProcess.Hide env pp (some world)).1 ∧
      (FVRFullScreenUserWidget_PostProcess.TickRenderer env pp world
          deltaSeconds).1.widgetRenderTarget = none ∧
      (FVRFullScreenUserWidget_PostProcess.TickRenderer env pp world
          deltaSeconds).1.widgetRenderer = none ∧
      (FVRFullScreenUserWidget_PostProcess.TickRenderer env pp world
          deltaSeconds).1.slateWindow = none) := by
  constructor
  · intro hne hvalid
    simp only [FVRFullScreenUserWidget_PostProcess.TickRenderer, hrt, if_pos hne,
      hvalid, if_true]
    refine ⟨by split <;> rfl, by split <;> rfl, by split <;> rfl, ?_,
      by split <;> simp, by split <;> simp⟩
    intro h
    rcases Option.isSome_iff_exists.mp h with ⟨v, hv⟩
    split <;> simp [hv]
  · intro hne hinvalid
    have hfields := postProcess_hide_fields env pp (some world)
    simp only [FVRFullScreenUserWidget_PostProcess.TickRenderer, hrt, if_pos hne,
      hinvalid, Bool.false_eq_true, if_false]
    rw [hfields.1]
    exact ⟨rfl, hfields.2.1, hfields.1, hfields.2.2.1⟩

/-- Witness for C3: a live 640x360 state ticked in a game world whose viewport
reports 800x600 resizes to 800x600. -/
theorem tickRenderer_sync_witness :
    (FVRFullScreenUserWidget_PostProcess.TickRenderer sampleEnv samplePPStale
        sampleGameWorld 0).1.currentWidgetDrawSize = ⟨800, 600⟩ := by
  have h := (tickRenderer_sync sampleEnv samplePPStale sampleGameWorld 0
      ⟨640, 360, ⟨0, 0, 0, 0⟩⟩ rfl).1 (by decide) (by decide)
  rw [h.1]; decide

/-- Counterexample to C4 as stated: a tick that enters with a valid
`WidgetRenderTarget` and a valid `WidgetRenderer` but performs no `DrawWindow`
call, because the newly calculated size (0,0) — the game viewport is gone — is
invalid, so the tick hides the display (nulling the renderer) before the draw
check. -/
theorem tickRenderer_draw_cex :
    samplePPStale.widgetRenderTarget.isSome = true ∧
    samplePPStale.widgetRenderer.isSome = true ∧
    (FVRFullScreenUserWidget_PostProcess.TickRenderer sampleEnv samplePPStale
        sampleViewportlessWorld 0).2.all (fun e => !e.isDrawWindow) = true := by
  decide

/-- C4 (amended): on every tick in which `WidgetRenderTarget` and
`WidgetRenderer` are both valid at entry and the newly calculated widget size
is either unchanged or valid — i.e. the tick does not hide the display — the
virtual window is rendered into the render target via `DrawWindow` with draw
scale 1.0 at the (updated) `CurrentWidgetDrawSize`. -/
theorem tickRenderer_draw (env : HostEnv) (pp : PostProcessState) (world : World)
    (deltaSeconds : ℚ)
    (h1 : pp.widgetRenderTarget.isSome = true)
    (h2 : pp.widgetRenderer.isSome = true)
    (h3 : FVRFullScreenUserWidget_PostProcess.CalculateWidgetDrawSize env pp world =
            pp.currentWidgetDrawSize ∨
          FVRFullScreenUserWidget_PostProcess.IsTextureSizeValid env
            (FVRFullScreenUserWidget_PostProcess.CalculateWidgetDrawSize env pp world) =
            true) :
    PPEffect.drawWindow 1
        (FVRFullScreenUserWidget_PostProcess.TickRenderer env pp world
          deltaSeconds).1.currentWidgetDrawSize deltaSeconds ∈
      (FVRFullScreenUserWidget_PostProcess.TickRenderer env pp world deltaSeconds).2 := by
  rcases Option.isSome_iff_exists.mp h1 with ⟨rt, hrt⟩
  by_cases hne : FVRFullScreenUserWidget_PostProcess.CalculateWidgetDrawSize env pp
      world = pp.currentWidgetDrawSize
  · simp [FVRFullScreenUserWidget_PostProcess.TickRenderer, hrt, hne, h2]
  · have hvalid := h3.resolve_left hne
    simp [FVRFullScreenUserWidget_PostProcess.TickRenderer, hrt, if_pos hne, hvalid, h2]

/-- Witness for C4 (amended): a live state with the manual draw size ticks and
draws at 640x360. -/
theorem tickRenderer_draw_witness :
    PPEffect.drawWindow 1 ⟨640, 360⟩ 0 ∈
      (FVRFullScreenUserWidget_PostProcess.TickRenderer sampleEnv samplePPActive
        sampleGameWorld 0).2 := by
  have h := tickRenderer_draw sampleEnv samplePPActive sampleGameWorld 0
    (by decide) (by decide) (Or.inl (by decide))
  have he : (FVRFullScreenUserWidget_PostProcess.TickRenderer sampleEnv samplePPActive
      sampleGameWorld 0).1.currentWidgetDrawSize = ⟨640, 360⟩ := by decide
  rw [he] at h
  exact h

/-- `ReleaseRenderer` never emits an `InitCustomFormat` call. -/
theorem initRenderTarget_notMem_release (env : HostEnv) (pp : PostProcessState)
    (sz : IntPoint) :
    PPEffect.initRenderTarget sz ∉
      (FVRFullScreenUserWidget_PostProcess.ReleaseRenderer env pp).2 := by
  simp only [FVRFullScreenUserWidget_PostProcess.ReleaseRenderer,
    FVRFullScreenUserWidget_PostProcess.UnRegisterHitTesterWithViewport]
  split_ifs <;> simp

/-- `Hide` on the post-process display never emits an `InitCustomFormat`
call. -/
theorem initRenderTarget_notMem_hide (env : HostEnv) (pp : PostProcessState)
    (world : Option World) (sz : IntPoint) :
    PPEffect.initRenderTarget sz ∉
      (FVRFullScreenUserWidget_PostProcess.Hide env pp world).2 := by
  simp only [FVRFullScreenUserWidget_PostProcess.Hide,
    FVRFullScreenUserWidget_PostProcess.ReleasePostProcessComponent,
    FVRFullScreenUserWidget_PostProcess.ReleaseRenderer,
    FVRFullScreenUserWidget_PostProcess.UnRegisterHitTesterWithViewport]
  split_ifs <;> simp

/-- C9: `IsTextureSizeValid` accepts a size iff both components are strictly
positive and neither exceeds the maximum 2D texture dimension, and every
`InitCustomFormat` call on the widget render target — in `CreateRenderer` and
in `TickRenderer` — passes a size accepted by `IsTextureSizeValid`. -/
theorem isTextureSizeValid_guards (env : HostEnv) (pp pp2 : PostProcessState)
    (world : Option World) (widget : Option Unit) (inDPIScale : ℚ) (world2 : World)
    (deltaSeconds : ℚ) :
    (∀ s : IntPoint, FVRFullScreenUserWidget_PostProcess.IsTextureSizeValid env s =
      true ↔
      (0 < s.x ∧ 0 < s.y ∧ s.x ≤ env.maxTextureDimension ∧
        s.y ≤ env.maxTextureDimension)) ∧
    (∀ sz, PPEffect.initRenderTarget sz ∈
        (FVRFullScreenUserWidget_PostProcess.CreateRenderer env pp world widget
          inDPIScale).2.2 →
      FVRFullScreenUserWidget_PostProcess.IsTextureSizeValid env sz = true) ∧
    (∀ sz, PPEffect.initRenderTarget sz ∈
        (FVRFullScreenUserWidget_PostProcess.TickRenderer env pp2 world2
          deltaSeconds).2 →
      FVRFullScreenUserWidget_PostProcess.IsTextureSizeValid env sz = true) := by
  refine ⟨fun s => by simp [FVRFullScreenUserWidget_PostProcess.IsTextureSizeValid],
    ?_, ?_⟩
  · intro sz hmem
    rcases hR : FVRFullScreenUserWidget_PostProcess.ReleaseRenderer env pp
      with ⟨pp1, effsR⟩
    have hrel : PPEffect.initRenderTarget sz ∉ effsR := by
      have h := initRenderTarget_notMem_release env pp sz
      rw [hR] at h; exact h
    rcases world with _ | w <;> rcases widget with _ | u <;>
      simp only [FVRFullScreenUserWidget_PostProcess.CreateRenderer, hR] at hmem
    · exact absurd hmem hrel
    · exact absurd hmem hrel
    · exact absurd hmem hrel
    · split at hmem
      case isTrue hv =>
        simp only
          [FVRFullScreenUserWidget_PostProcess.RegisterHitTesterWithViewport] at hmem
        rcases List.mem_append.mp hmem with h | h
        · rcases List.mem_append.mp h with h2 | h2
          · exact absurd h2 hrel
          · revert h2; split <;> simp
        · simp only [List.mem_cons, List.not_mem_nil, or_false,
            PPEffect.initRenderTarget.injEq] at h
          rcases h with rfl | h
          · exact hv
          · exact absurd h (by simp)
      case isFalse hv => exact absurd hmem hrel
  · intro sz hmem
    rcases htgt : pp2.widgetRenderTarget with _ | rt
    · simp only [FVRFullScreenUserWidget_PostProcess.TickRenderer, htgt,
        List.not_mem_nil] at hmem
    · by_cases hne : FVRFullScreenUserWidget_PostProcess.CalculateWidgetDrawSize env pp2
        world2 = pp2.currentWidgetDrawSize
      · simp only [FVRFullScreenUserWidget_PostProcess.TickRenderer, htgt, hne, ne_eq,
          not_true_eq_false, if_false] at hmem
        revert hmem
        split <;> intro hmem <;> simp at hmem
      · by_cases hvalid : FVRFullScreenUserWidget_PostProcess.IsTextureSizeValid env
          (FVRFullScreenUserWidget_PostProcess.CalculateWidgetDrawSize env pp2
            world2) = true
        · simp only [FVRFullScreenUserWidget_PostProcess.TickRenderer, htgt, ne_eq,
            hne, not_false_eq_true, if_true, hvalid] at hmem
          revert hmem
          split <;> intro hmem
          · rcases List.mem_append.mp hmem with h | h
            · rcases List.mem_append.mp h with h2 | h2
              · simp only [List.mem_cons, List.not_mem_nil, or_false] at h2
                rcases h2 with h2 | h2 | h2
                · injection h2 with h3; rw [h3]; exact hvalid
                · exact absurd h2 (by simp)
                · exact absurd h2 (by simp)
              · revert h2; split <;> simp
            · exact absurd h (by simp)
          · rcases List.mem_append.mp hmem with h2 | h2
            · simp only [List.mem_cons, List.not_mem_nil, or_false] at h2
              rcases h2 with h2 | h2 | h2
              · injection h2 with h3; rw [h3]; exact hvalid
              · exact absurd h2 (by simp)
              · exact absurd h2 (by simp)
            · revert h2; split <;> simp
        · rcases hH : FVRFullScreenUserWidget_PostProcess.Hide env pp2 (some world2)
            with ⟨ppH, effsH⟩
          have hhide : PPEffect.initRenderTarget sz ∉ effsH := by
            have h := initRenderTarget_notMem_hide env pp2 (some world2) sz
            rw [hH] at h; exact h
          have hHrend : ppH.widgetRenderer = none := by
            have h := (postProcess_hide_fields env pp2 (some world2)).1
            rw [hH] at h; exact h
          simp only [FVRFullScreenUserWidget_PostProcess.TickRenderer, htgt, ne_eq,
            hne, not_false_eq_true, if_true, hvalid, Bool.false_eq_true, if_false, hH,
            hHrend, Option.isSome_none] at hmem
          exact absurd hmem hhide

/-- Witness for C9: a concrete accepted size, and a concrete
`InitCustomFormat` effect emitted by `CreateRenderer` carries a valid size. -/
theorem isTextureSizeValid_guards_witness :
    FVRFullScreenUserWidget_PostProcess.IsTextureSizeValid sampleEnv ⟨640, 360⟩ =
      true ∧
    FVRFullScreenUserWidget_PostProcess.IsTextureSizeValid sampleEnv ⟨800, 600⟩ =
      true := by
  have h := isTextureSizeValid_guards sampleEnv samplePP samplePP
    (some sampleGameWorld) (some ()) 1 sampleGameWorld 0
  exact ⟨(h.1 ⟨640, 360⟩).mpr (by decide), h.2.1 ⟨800, 600⟩ (by decide)⟩

/-- `InitWidget` only ever creates the widget; every other field is kept. -/
theorem initWidget_fields (env : HostEnv) (ws : WidgetState) :
    (UVRFullScreenUserWidget.InitWidget env ws).bDisplayRequested =
      ws.bDisplayRequested ∧
    (UVRFullScreenUserWidget.InitWidget env ws).world = ws.world ∧
    (UVRFullScreenUserWidget.InitWidget env ws).currentDisplayType =
      ws.currentDisplayType ∧
    (UVRFullScreenUserWidget.InitWidget env ws).viewportDisplay = ws.viewportDisplay ∧
    (UVRFullScreenUserWidget.InitWidget env ws).postProcessDisplay =
      ws.postProcessDisplay := by
  unfold UVRFullScreenUserWidget.InitWidget
  split <;> exact ⟨rfl, rfl, rfl, rfl, rfl⟩

/-- Fields of the widget state after `Hide`: inactive, request flag cleared,
world cleared, and the created widget released whenever a path was active. -/
theorem widget_hide_fields (env : HostEnv) (ws : WidgetState) :
    (UVRFullScreenUserWidget.Hide env ws).currentDisplayType =
      EVRWidgetDisplayType.Inactive ∧
    (UVRFullScreenUserWidget.Hide env ws).bDisplayRequested = false ∧
    (UVRFullScreenUserWidget.Hide env ws).world = none ∧
    (ws.currentDisplayType ≠ EVRWidgetDisplayType.Inactive →
      (UVRFullScreenUserWidget.Hide env ws).widget = none) := by
  cases hdt : ws.currentDisplayType <;>
    simp [UVRFullScreenUserWidget.Hide, UVRFullScreenUserWidget.ReleaseWidget, hdt]

/-- C7: host-lifecycle tracking: a `Tick` that finds the weak world reference
stale, or an `OnLevelRemovedFromWorld` with a null level and the tracked world,
calls `Hide`, returning `CurrentDisplayType` to `Inactive`, releasing the
created widget and clearing the world reference; `BeginDestroy` performs the
same release. -/
theorem lifecycle_hide (env : HostEnv) (ws : WidgetState) (deltaSeconds : ℚ) :
    (ws.currentDisplayType ≠ EVRWidgetDisplayType.Inactive → ws.world = none →
      UVRFullScreenUserWidget.Tick env ws deltaSeconds =
        UVRFullScreenUserWidget.Hide env ws ∧
      (UVRFullScreenUserWidget.Tick env ws deltaSeconds).currentDisplayType =
        EVRWidgetDisplayType.Inactive ∧
      (UVRFullScreenUserWidget.Tick env ws deltaSeconds).widget = none ∧
      (UVRFullScreenUserWidget.Tick env ws deltaSeconds).world = none) ∧
    (∀ w, ws.world = some w →
      UVRFullScreenUserWidget.OnLevelRemovedFromWorld env ws none (some w) =
        UVRFullScreenUserWidget.Hide env ws ∧
      (UVRFullScreenUserWidget.OnLevelRemovedFromWorld env ws none
          (some w)).currentDisplayType = EVRWidgetDisplayType.Inactive ∧
      (ws.currentDisplayType ≠ EVRWidgetDisplayType.Inactive →
        (UVRFullScreenUserWidget.OnLevelRemovedFromWorld env ws none
          (some w)).widget = none) ∧
      (UVRFullScreenUserWidget.OnLevelRemovedFromWorld env ws none (some w)).world =
        none) ∧
    ((UVRFullScreenUserWidget.BeginDestroy env ws).currentDisplayType =
        EVRWidgetDisplayType.Inactive ∧
      (ws.currentDisplayType ≠ EVRWidgetDisplayType.Inactive →
        (UVRFullScreenUserWidget.BeginDestroy env ws).widget = none) ∧
      (UVRFullScreenUserWidget.BeginDestroy env ws).world = none) := by
  have hfields := widget_hide_fields env ws
  refine ⟨?_, ?_, ?_⟩
  · intro hdt hw
    have heq : UVRFullScreenUserWidget.Tick env ws deltaSeconds =
        UVRFullScreenUserWidget.Hide env ws := by
      simp only [UVRFullScreenUserWidget.Tick, if_pos hdt, hw]
    rw [heq]
    exact ⟨rfl, hfields.1, hfields.2.2.2 hdt, hfields.2.2.1⟩
  · intro w hw
    have heq : UVRFullScreenUserWidget.OnLevelRemovedFromWorld env ws none (some w) =
        UVRFullScreenUserWidget.Hide env ws := by
      simp [UVRFullScreenUserWidget.OnLevelRemovedFromWorld, hw]
    rw [heq]
    exact ⟨rfl, hfields.1, fun hdt => hfields.2.2.2 hdt, hfields.2.2.1⟩
  · exact ⟨hfields.1, fun hdt => hfields.2.2.2 hdt, hfields.2.2.1⟩

/-- Witness for C7: ticking the displayed sample state after its world went
stale hides it. -/
theorem lifecycle_hide_witness :
    (UVRFullScreenUserWidget.Tick sampleEnv ({ sampleWS with world := none })
        0).currentDisplayType = EVRWidgetDisplayType.Inactive ∧
    (UVRFullScreenUserWidget.Tick sampleEnv ({ sampleWS with world := none })
        0).widget = none := by
  have h := (lifecycle_hide sampleEnv ({ sampleWS with world := none }) 0).1
    (by decide) rfl
  exact ⟨h.2.1, h.2.2.1⟩

/-- `ShouldDisplay` reads only the display-type configuration: recording the
display request and the tracked world does not change it. -/
theorem shouldDisplay_update (env : HostEnv) (ws : WidgetState) (b : Bool)
    (w inWorld : Option World) :
    UVRFullScreenUserWidget.ShouldDisplay env
        { ws with bDisplayRequested := b, world := w } inWorld =
      UVRFullScreenUserWidget.ShouldDisplay env ws inWorld := rfl

/-- `GetDisplayType` reads only the display-type configuration. -/
theorem getDisplayType_update (env : HostEnv) (ws : WidgetState) (b : Bool)
    (w inWorld : Option World) :
    UVRFullScreenUserWidget.GetDisplayType env
        { ws with bDisplayRequested := b, world := w } inWorld =
      UVRFullScreenUserWidget.GetDisplayType env ws inWorld := rfl

/-- C8: `Display` returns false and activates nothing — both path states and
`CurrentDisplayType` are unchanged, no widget is created, and an `Inactive`
display stays `Inactive` — whenever the world is null, `WidgetClass` is unset,
`ShouldDisplay` fails, or the widget is already displayed; in every case it
still records the display request and stores the world; and `ShouldDisplay`
fails exactly for a server build, null RHI, archetype/class-default object,
dedicated server, or an `Inactive` display type for the world. -/
theorem display_failure_spec (env : HostEnv) (ws : WidgetState) (inWorld : Option World) :
    ((inWorld = none ∨ ws.widgetClass = none ∨
        UVRFullScreenUserWidget.ShouldDisplay env ws inWorld = false ∨
        ws.currentDisplayType ≠ EVRWidgetDisplayType.Inactive) →
      (UVRFullScreenUserWidget.Display env ws inWorld).1 = false ∧
      (UVRFullScreenUserWidget.Display env ws inWorld).2.currentDisplayType =
        ws.currentDisplayType ∧
      (UVRFullScreenUserWidget.Display env ws inWorld).2.widget = ws.widget ∧
      (UVRFullScreenUserWidget.Display env ws inWorld).2.viewportDisplay =
        ws.viewportDisplay ∧
      (UVRFullScreenUserWidget.Display env ws inWorld).2.postProcessDisplay =
        ws.postProcessDisplay ∧
      (ws.currentDisplayType = EVRWidgetDisplayType.Inactive →
        (UVRFullScreenUserWidget.Display env ws inWorld).2.currentDisplayType =
          EVRWidgetDisplayType.Inactive)) ∧
    ((UVRFullScreenUserWidget.Display env ws inWorld).2.bDisplayRequested = true ∧
      (UVRFullScreenUserWidget.Display env ws inWorld).2.world = inWorld) ∧
    (UVRFullScreenUserWidget.ShouldDisplay env ws inWorld = false ↔
      (env.ueServer = true ∨ env.usingNullRHI = true ∨ env.isArchetypeOrCDO = true ∨
        env.isDedicatedServer = true ∨
        UVRFullScreenUserWidget.GetDisplayType env ws inWorld =
          EVRWidgetDisplayType.Inactive)) := by
  refine ⟨?_, ⟨?_, ?_⟩, ?_⟩
  · intro h
    have hg : (inWorld.isSome && ws.widgetClass.isSome &&
        UVRFullScreenUserWidget.ShouldDisplay env ws inWorld &&
        decide (ws.currentDisplayType = EVRWidgetDisplayType.Inactive)) = false := by
      rcases h with rfl | h2 | h2 | h2
      · simp
      · simp [h2]
      · simp [h2]
      · simp [h2]
    simp only [UVRFullScreenUserWidget.Display, shouldDisplay_update, hg,
      Bool.false_eq_true, if_false]
    exact ⟨trivial, trivial, trivial, trivial, trivial, fun hI => hI⟩
  · simp only [UVRFullScreenUserWidget.Display, shouldDisplay_update,
      getDisplayType_update]
    split
    · rcases hdt : UVRFullScreenUserWidget.GetDisplayType env ws inWorld
        with _ | _ | _ <;>
        simp only [hdt] <;> split <;> simp [initWidget_fields]
    · rfl
  · simp only [UVRFullScreenUserWidget.Display, shouldDisplay_update,
      getDisplayType_update]
    split
    · rcases hdt : UVRFullScreenUserWidget.GetDisplayType env ws inWorld
        with _ | _ | _ <;>
        simp only [hdt] <;> split <;> simp [initWidget_fields]
    · rfl
  · cases h1 : env.ueServer <;>
      cases h2 : env.usingNullRHI <;>
      cases h3 : env.isArchetypeOrCDO <;>
      cases h4 : env.isDedicatedServer <;>
      simp [UVRFullScreenUserWidget.ShouldDisplay, h1, h2, h3, h4]

/-- Witness for C8: a second `Display` on the already-displayed sample state
fails and changes no display state. -/
theorem display_failure_spec_witness :
    (UVRFullScreenUserWidget.Display sampleEnv sampleWS (some sampleGameWorld)).1 =
      false ∧
    (UVRFullScreenUserWidget.Display sampleEnv sampleWS
        (some sampleGameWorld)).2.currentDisplayType =
      EVRWidgetDisplayType.PostProcess := by
  have h := (display_failure_spec sampleEnv sampleWS (some sampleGameWorld)).1
    (Or.inr (Or.inr (Or.inr (by decide))))
  exact ⟨h.1, h.2.1.trans rfl⟩

/-- `FVRFullScreenUserWidget_Viewport.Hide` always leaves the canvas weak
pointer unset. -/
theorem viewport_hide_canvas (vs : ViewportState) (world : Option World) :
    (FVRFullScreenUserWidget_Viewport.Hide vs world).fullScreenCanvasWidget = none := by
  unfold FVRFullScreenUserWidget_Viewport.Hide
  split
  · rfl
  · next h => exact Option.not_isSome_iff_eq_none.mp (by simp_all)

/-- `ReleaseRenderer` does not change `bRenderToTextureOnly`. -/
theorem releaseRenderer_bRTO (env : HostEnv) (pp : PostProcessState) :
    (FVRFullScreenUserWidget_PostProcess.ReleaseRenderer env
      pp).1.bRenderToTextureOnly = pp.bRenderToTextureOnly := rfl

/-- `Hide` on the post-process display does not change `bRenderToTextureOnly`. -/
theorem postProcess_hide_bRTO (env : HostEnv) (pp : PostProcessState)
    (world : Option World) :
    (FVRFullScreenUserWidget_PostProcess.Hide env pp
      world).1.bRenderToTextureOnly = pp.bRenderToTextureOnly := by
  unfold FVRFullScreenUserWidget_PostProcess.Hide
  split <;> rfl

/-- When not in render-to-texture-only mode, `Hide` on the post-process
display releases the post-process component. -/
theorem postProcess_hide_component (env : HostEnv) (pp : PostProcessState)
    (world : Option World) (h : pp.bRenderToTextureOnly = false) :
    (FVRFullScreenUserWidget_PostProcess.Hide env pp
      world).1.postProcessComponent = none := by
  simp [FVRFullScreenUserWidget_PostProcess.Hide,
    FVRFullScreenUserWidget_PostProcess.ReleasePostProcessComponent,
    FVRFullScreenUserWidget_PostProcess.ReleaseRenderer,
    FVRFullScreenUserWidget_PostProcess.UnRegisterHitTesterWithViewport, h]

/-- The first component of an `ite` whose branches share it. -/
theorem fst_ite_pair {α β : Type _} (c : Prop) [Decidable c] (x : α) (a b : β) :
    (if c then (x, a) else (x, b)).1 = x := by
  split <;> rfl

/-- `TickRenderer` does not change `bRenderToTextureOnly`. -/
theorem tickRenderer_bRTO (env : HostEnv) (pp : PostProcessState) (world : World)
    (deltaSeconds : ℚ) :
    (FVRFullScreenUserWidget_PostProcess.TickRenderer env pp world
      deltaSeconds).1.bRenderToTextureOnly = pp.bRenderToTextureOnly := by
  unfold FVRFullScreenUserWidget_PostProcess.TickRenderer
  split
  · rfl
  · rw [fst_ite_pair]
    split
    · split
      · rfl
      · exact postProcess_hide_bRTO env pp (some world)
    · rfl

/-- `CreateRenderer` does not change `bRenderToTextureOnly`. -/
theorem createRenderer_bRTO (env : HostEnv) (pp : PostProcessState)
    (world : Option World) (widget : Option Unit) (inDPIScale : ℚ) :
    (FVRFullScreenUserWidget_PostProcess.CreateRenderer env pp world widget
      inDPIScale).2.1.bRenderToTextureOnly = pp.bRenderToTextureOnly := by
  unfold FVRFullScreenUserWidget_PostProcess.CreateRenderer
  rcases world with _ | w <;> rcases widget with _ | u
  · rfl
  · rfl
  · rfl
  · simp only [FVRFullScreenUserWidget_PostProcess.RegisterHitTesterWithViewport]
    split_ifs <;> rfl

/-- `CreatePostProcessComponent` does not change `bRenderToTextureOnly`. -/
theorem createPostProcessComponent_bRTO (pp : PostProcessState)
    (world : Option World) :
    (FVRFullScreenUserWidget_PostProcess.CreatePostProcessComponent pp
      world).2.1.bRenderToTextureOnly = pp.bRenderToTextureOnly := by
  unfold FVRFullScreenUserWidget_PostProcess.CreatePostProcessComponent
  rcases world with _ | w <;>
    rcases hmat : (FVRFullScreenUserWidget_PostProcess.ReleasePostProcessComponent
      pp).1.postProcessMaterial with _ | mat <;>
    simp only [hmat] <;> rfl

/-- `Display` on the post-process display records exactly the requested
render-to-texture-only flag. -/
theorem postProcess_display_bRTO (env : HostEnv) (pp : PostProcessState)
    (world : Option World) (widget : Option Unit) (b : Bool) (inDPIScale : ℚ) :
    (FVRFullScreenUserWidget_PostProcess.Display env pp world widget b
      inDPIScale).2.1.bRenderToTextureOnly = b := by
  simp only [FVRFullScreenUserWidget_PostProcess.Display]
  have h1 := createRenderer_bRTO env { pp with bRenderToTextureOnly := b } world widget
    inDPIScale
  split
  · rw [createPostProcessComponent_bRTO, h1]
  · rw [h1]

/-- A widget whose display type is not `Viewport` has no active
viewport-overlay canvas (under mode consistency). -/
theorem not_viewportActive_of_type (ws : WidgetState) (h : ModeConsistent ws)
    (hdt : ws.currentDisplayType ≠ EVRWidgetDisplayType.Viewport) :
    ¬ ViewportPathActive ws :=
  fun ha => hdt (h.1 ha)

/-- A widget whose display type is not `PostProcess` holds no post-process
resources (under mode consistency). -/
theorem not_postProcessActive_of_type (ws : WidgetState) (h : ModeConsistent ws)
    (hdt : ws.currentDisplayType ≠ EVRWidgetDisplayType.PostProcess) :
    ¬ PostProcessPathActive ws :=
  fun ha => hdt (h.2 ha)

/-- `Hide` preserves the mode invariant. -/
theorem displayInv_hide (env : HostEnv) (ws : WidgetState) (h : DisplayInv ws) :
    DisplayInv (UVRFullScreenUserWidget.Hide env ws) := by
  obtain ⟨hmc, hb⟩ := h
  cases hdt : ws.currentDisplayType
  case Inactive =>
    have hnv : ¬ ViewportPathActive ws :=
      not_viewportActive_of_type ws hmc (by simp [hdt])
    have hnp : ¬ PostProcessPathActive ws :=
      not_postProcessActive_of_type ws hmc (by simp [hdt])
    simp only [UVRFullScreenUserWidget.Hide, hdt, ne_eq, not_true_eq_false, if_false]
    exact ⟨⟨fun ha => absurd ha hnv, fun ha => absurd ha hnp⟩, hb⟩
  case Viewport =>
    have hnp : ¬ PostProcessPathActive ws :=
      not_postProcessActive_of_type ws hmc (by simp [hdt])
    simp only [UVRFullScreenUserWidget.Hide, hdt, ne_eq, reduceCtorEq,
      not_false_eq_true, if_true, UVRFullScreenUserWidget.ReleaseWidget]
    refine ⟨⟨fun ha => ?_, fun ha => absurd ha hnp⟩, hb⟩
    exact absurd ha (by simp [ViewportPathActive, viewport_hide_canvas])
  case PostProcess =>
    have hnv : ¬ ViewportPathActive ws :=
      not_viewportActive_of_type ws hmc (by simp [hdt])
    have hfields := postProcess_hide_fields env ws.postProcessDisplay ws.world
    have hcomp := postProcess_hide_component env ws.postProcessDisplay ws.world hb
    simp only [UVRFullScreenUserWidget.Hide, hdt, ne_eq, reduceCtorEq,
      not_false_eq_true, if_true, UVRFullScreenUserWidget.ReleaseWidget]
    refine ⟨⟨fun ha => absurd ha hnv, fun ha => ?_⟩, ?_⟩
    · rcases ha with ha | ha | ha | ha <;>
        simp [hfields.1, hfields.2.1, hfields.2.2.1, hcomp] at ha
    · rw [postProcess_hide_bRTO]
      exact hb

/-- `Tick` preserves the mode invariant. -/
theorem displayInv_tick (env : HostEnv) (ws : WidgetState) (deltaSeconds : ℚ)
    (h : DisplayInv ws) :
    DisplayInv (UVRFullScreenUserWidget.Tick env ws deltaSeconds) := by
  obtain ⟨hmc, hb⟩ := h
  cases hdt : ws.currentDisplayType
  case Inactive =>
    simp only [UVRFullScreenUserWidget.Tick, hdt, ne_eq, not_true_eq_false, if_false]
    exact ⟨hmc, hb⟩
  case Viewport =>
    rcases hw : ws.world with _ | w
    · simp only [UVRFullScreenUserWidget.Tick, hdt, ne_eq, reduceCtorEq,
        not_false_eq_true, if_true, hw]
      exact displayInv_hide env ws ⟨hmc, hb⟩
    · have hnp : ¬ PostProcessPathActive ws :=
        not_postProcessActive_of_type ws hmc (by simp [hdt])
      simp only [UVRFullScreenUserWidget.Tick, hdt, ne_eq, reduceCtorEq,
        not_false_eq_true, if_true, hw, FVRFullScreenUserWidget_Viewport.Tick]
      exact ⟨⟨fun _ => rfl, fun ha => absurd ha hnp⟩, hb⟩
  case PostProcess =>
    have hnv : ¬ ViewportPathActive ws :=
      not_viewportActive_of_type ws hmc (by simp [hdt])
    rcases hw : ws.world with _ | w
    · simp only [UVRFullScreenUserWidget.Tick, hdt, ne_eq, reduceCtorEq,
        not_false_eq_true, if_true, hw]
      exact displayInv_hide env ws ⟨hmc, hb⟩
    · simp only [UVRFullScreenUserWidget.Tick, hdt, ne_eq, reduceCtorEq,
        not_false_eq_true, if_true, hw]
      refine ⟨⟨fun ha => absurd ha hnv, fun _ => rfl⟩, ?_⟩
      exact (tickRenderer_bRTO env ws.postProcessDisplay w deltaSeconds).trans hb

/-- `OnLevelRemovedFromWorld` preserves the mode invariant. -/
theorem displayInv_onLevelRemoved (env : HostEnv) (ws : WidgetState)
    (inLevel : Option Unit) (inWorld2 : Option World) (h : DisplayInv ws) :
    DisplayInv (UVRFullScreenUserWidget.OnLevelRemovedFromWorld env ws inLevel
      inWorld2) := by
  unfold UVRFullScreenUserWidget.OnLevelRemovedFromWorld
  rcases inLevel with _ | l <;> rcases inWorld2 with _ | w <;>
    rcases hw : ws.world with _ | tw <;> simp only [hw] <;> try exact h
  split
  · exact displayInv_hide env ws h
  · exact h

/-- `Display` preserves the mode invariant. -/
theorem displayInv_display (env : HostEnv) (ws : WidgetState) (inWorld : Option World)
    (h : DisplayInv ws) :
    DisplayInv (UVRFullScreenUserWidget.Display env ws inWorld).2 := by
  obtain ⟨hmc, hb⟩ := h
  by_cases hg : (inWorld.isSome && ws.widgetClass.isSome &&
      UVRFullScreenUserWidget.ShouldDisplay env ws inWorld &&
      decide (ws.currentDisplayType = EVRWidgetDisplayType.Inactive)) = true
  case neg =>
    have hgf : (inWorld.isSome && ws.widgetClass.isSome &&
        UVRFullScreenUserWidget.ShouldDisplay env ws inWorld &&
        decide (ws.currentDisplayType = EVRWidgetDisplayType.Inactive)) = false := by
      simpa using hg
    simp only [UVRFullScreenUserWidget.Display, shouldDisplay_update, hgf,
      Bool.false_eq_true, if_false]
    exact ⟨hmc, hb⟩
  case pos =>
    have hty : ws.currentDisplayType = EVRWidgetDisplayType.Inactive := by
      have h' := hg
      simp only [Bool.and_eq_true, decide_eq_true_eq] at h'
      exact h'.2
    have hnv : ¬ ViewportPathActive ws :=
      not_viewportActive_of_type ws hmc (by simp [hty])
    have hnp : ¬ PostProcessPathActive ws :=
      not_postProcessActive_of_type ws hmc (by simp [hty])
    simp only [UVRFullScreenUserWidget.Display, shouldDisplay_update,
      getDisplayType_update, hg, if_true]
    rcases hdt : UVRFullScreenUserWidget.GetDisplayType env ws inWorld with _ | _ | _ <;>
      simp only [hdt]
    · exact ⟨⟨fun ha => absurd (by simpa [ViewportPathActive, initWidget_fields]
          using ha) hnv,
        fun ha => absurd (by simpa [PostProcessPathActive, initWidget_fields]
          using ha) hnp⟩,
        by simp [initWidget_fields]; exact hb⟩
    · split <;>
      · refine ⟨⟨fun _ => ?_, fun ha => ?_⟩, ?_⟩
        · exact (initWidget_fields env _).2.2.1
        · simp only [PostProcessPathActive, initWidget_fields] at ha
          exact absurd ha hnp
        · simp only [initWidget_fields]
          exact hb
    · split <;>
      · refine ⟨⟨fun ha => ?_, fun _ => ?_⟩, ?_⟩
        · simp only [ViewportPathActive, initWidget_fields] at ha
          exact absurd ha hnv
        · exact (initWidget_fields env _).2.2.1
        · exact postProcess_display_bRTO env _ inWorld _ false env.dpiScale

/-- The freshly-constructed widget satisfies the mode invariant. -/
theorem displayInv_initial (mat wc : Option ℕ) (edt gdt pdt : EVRWidgetDisplayType) :
    DisplayInv (UVRFullScreenUserWidget.initialWidgetState mat wc edt gdt pdt) := by
  refine ⟨⟨fun ha => ?_, fun ha => ?_⟩, rfl⟩ <;>
    simp [ViewportPathActive, PostProcessPathActive,
      UVRFullScreenUserWidget.initialWidgetState,
      UVRFullScreenUserWidget.initialPostProcessState,
      FVRFullScreenUserWidget_Viewport.ctor] at ha

/-- C6: the widget is presented in exactly one mode at a time: `Display`
activates a path only when `CurrentDisplayType` is `Inactive`, and then the
path selected by `GetDisplayType` for the world, leaving the other path's state
untouched; `Tick` delegates only to the recorded path; and the mode invariant
(each active path is the recorded one, so the viewport-overlay and
post-process presentations are never active simultaneously) holds initially
and is preserved by `Display`, `Hide`, `Tick` and `OnLevelRemovedFromWorld`. -/
theorem display_mode_exclusive (env : HostEnv) (ws : WidgetState)
    (inWorld : Option World) (deltaSeconds : ℚ) (inLevel : Option Unit)
    (inWorld2 : Option World) (mat wc : Option ℕ)
    (edt gdt pdt : EVRWidgetDisplayType) :
    (ModeConsistent ws → ¬(ViewportPathActive ws ∧ PostProcessPathActive ws)) ∧
    (ws.currentDisplayType ≠ EVRWidgetDisplayType.Inactive →
      (UVRFullScreenUserWidget.Display env ws inWorld).2.viewportDisplay =
        ws.viewportDisplay ∧
      (UVRFullScreenUserWidget.Display env ws inWorld).2.postProcessDisplay =
        ws.postProcessDisplay ∧
      (UVRFullScreenUserWidget.Display env ws inWorld).2.currentDisplayType =
        ws.currentDisplayType) ∧
    (inWorld.isSome = true → ws.widgetClass.isSome = true →
      UVRFullScreenUserWidget.ShouldDisplay env ws inWorld = true →
      ws.currentDisplayType = EVRWidgetDisplayType.Inactive →
      (UVRFullScreenUserWidget.Display env ws inWorld).2.currentDisplayType =
        UVRFullScreenUserWidget.GetDisplayType env ws inWorld ∧
      (UVRFullScreenUserWidget.GetDisplayType env ws inWorld =
          EVRWidgetDisplayType.Viewport →
        (UVRFullScreenUserWidget.Display env ws inWorld).2.postProcessDisplay =
          ws.postProcessDisplay) ∧
      (UVRFullScreenUserWidget.GetDisplayType env ws inWorld =
          EVRWidgetDisplayType.PostProcess →
        (UVRFullScreenUserWidget.Display env ws inWorld).2.viewportDisplay =
          ws.viewportDisplay)) ∧
    (ws.currentDisplayType = EVRWidgetDisplayType.Viewport →
      ∀ w, ws.world = some w →
        UVRFullScreenUserWidget.Tick env ws deltaSeconds = ws) ∧
    (ws.currentDisplayType = EVRWidgetDisplayType.PostProcess →
      ∀ w, ws.world = some w →
        (UVRFullScreenUserWidget.Tick env ws deltaSeconds).viewportDisplay =
          ws.viewportDisplay) ∧
    (DisplayInv ws →
      DisplayInv (UVRFullScreenUserWidget.Display env ws inWorld).2 ∧
      DisplayInv (UVRFullScreenUserWidget.Hide env ws) ∧
      DisplayInv (UVRFullScreenUserWidget.Tick env ws deltaSeconds) ∧
      DisplayInv (UVRFullScreenUserWidget.OnLevelRemovedFromWorld env ws inLevel
        inWorld2)) ∧
    DisplayInv (UVRFullScreenUserWidget.initialWidgetState mat wc edt gdt pdt) := by
  refine ⟨?_, ?_, ?_, ?_, ?_, ?_, displayInv_initial mat wc edt gdt pdt⟩
  · rintro hmc ⟨hv, hp⟩
    exact EVRWidgetDisplayType.noConfusion ((hmc.1 hv).symm.trans (hmc.2 hp))
  · intro hdt
    have hg : (inWorld.isSome && ws.widgetClass.isSome &&
        UVRFullScreenUserWidget.ShouldDisplay env ws inWorld &&
        decide (ws.currentDisplayType = EVRWidgetDisplayType.Inactive)) = false := by
      simp [hdt]
    simp only [UVRFullScreenUserWidget.Display, shouldDisplay_update, hg,
      Bool.false_eq_true, if_false]
    exact ⟨trivial, trivial, trivial⟩
  · intro h1 h2 h3 h4
    have hg : (inWorld.isSome && ws.widgetClass.isSome &&
        UVRFullScreenUserWidget.ShouldDisplay env ws inWorld &&
        decide (ws.currentDisplayType = EVRWidgetDisplayType.Inactive)) = true := by
      simp [h1, h2, h3, h4]
    have hne : UVRFullScreenUserWidget.GetDisplayType env ws inWorld ≠
        EVRWidgetDisplayType.Inactive := by
      intro hI
      simp [UVRFullScreenUserWidget.ShouldDisplay, hI] at h3
    simp only [UVRFullScreenUserWidget.Display, shouldDisplay_update,
      getDisplayType_update, hg, if_true]
    rcases hdt : UVRFullScreenUserWidget.GetDisplayType env ws inWorld with _ | _ | _
    · exact absurd hdt hne
    · simp only [hdt]
      refine ⟨?_, fun _ => ?_, fun hc => absurd hc (by decide)⟩
      · split <;> exact (initWidget_fields env _).2.2.1
      · split <;> exact (initWidget_fields env _).2.2.2.2
    · simp only [hdt]
      refine ⟨?_, fun hc => absurd hc (by decide), fun _ => ?_⟩
      · split <;> exact (initWidget_fields env _).2.2.1
      · split <;> exact (initWidget_fields env _).2.2.2.1
  · intro hdt w hw
    simp only [UVRFullScreenUserWidget.Tick, hdt, hw, ne_eq, reduceCtorEq,
      not_false_eq_true, if_true, FVRFullScreenUserWidget_Viewport.Tick]
    rw [← hdt, ← hw]
  · intro hdt w hw
    simp [UVRFullScreenUserWidget.Tick, hdt, hw]
  · intro hInv
    exact ⟨displayInv_display env ws inWorld hInv, displayInv_hide env ws hInv,
      displayInv_tick env ws deltaSeconds hInv,
      displayInv_onLevelRemoved env ws inLevel inWorld2 hInv⟩

/-- Witness for C6: on the displayed sample state the two presentations are
exclusive, and hiding it keeps the invariant. -/
theorem display_mode_exclusive_witness :
    ¬ (ViewportPathActive sampleWS ∧ PostProcessPathActive sampleWS) ∧
    DisplayInv (UVRFullScreenUserWidget.Hide sampleEnv sampleWS) := by
  have h := display_mode_exclusive sampleEnv sampleWS (some sampleGameWorld) 0 none
    none (some 7) (some 3) EVRWidgetDisplayType.PostProcess
    EVRWidgetDisplayType.PostProcess EVRWidgetDisplayType.PostProcess
  have hInv : DisplayInv sampleWS := by
    unfold DisplayInv ModeConsistent ViewportPathActive PostProcessPathActive
    decide
  exact ⟨h.1 hInv.1, (h.2.2.2.2.2.1 hInv).2.1⟩

end VRFullScreenUserWidget
